import Mathlib

/-!
Shallow embedding of the ttl-operator controllers
(src/internal/controller/ttlresource_controller.go and
src/internal/controller/resource_controller.go, types from
src/api/v1alpha1/ttlresource_types.go).

Modelling conventions:
* Instants are integers in nanoseconds (Go `time.Duration` units); one
  second is `nsPerSec`.  `metav1.Time` is `Option Int`, with `none`
  playing the role of the zero time (`IsZero`).  `*metav1.Time` pointers
  are likewise `Option Int` (`none` = nil pointer).
* Every client call (Get / Status().Update / Update / Create / Delete)
  is resolved by an explicit environment record holding the store's
  response for that call site, and is logged in an `Act` trace in
  the order the Go code issues the calls.
* `KErr` abstracts the k8s.io/apimachinery error classes tested by the
  code (`IsNotFound`, `IsConflict`, `IsAlreadyExists`); `other` stands
  for any error none of those predicates match.
-/

/-- Error classes distinguished by the controllers via the
apimachinery `errors.IsNotFound` / `IsConflict` / `IsAlreadyExists`
predicates. -/
inductive KErr where
  | notFound
  | conflict
  | alreadyExists
  | other
deriving DecidableEq, Repr

/-- `metav1.Time`: `none` is the zero time (`IsZero` true). -/
abbrev MTime := Option Int

/-- One second in the embedded clock's unit (Go nanoseconds). -/
def nsPerSec : Int := 1000000000

/-- `metav1.OwnerReference` (the fields the controllers read). -/
structure OwnerReference where
  apiVersion : String
  kind : String
  name : String
  uid : Nat
deriving DecidableEq, Repr

/-- `TTLResourceSpec` from ttlresource_types.go. -/
structure TTLResourceSpec where
  ttlSeconds : Int
deriving DecidableEq, Repr

/-- `TTLResourceStatus` from ttlresource_types.go. -/
structure TTLResourceStatus where
  expired : Bool
  createdAt : MTime
  expiredAt : Option Int
deriving DecidableEq, Repr

/-- A `TTLResource` object together with the metadata fields the
controllers read (name, namespace, UID, creationTimestamp, labels,
ownerReferences). -/
structure TTLResource where
  name : String
  ns : String
  uid : Nat
  creationTimestamp : MTime
  labels : List (String × String)
  ownerReferences : List OwnerReference
  spec : TTLResourceSpec
  status : TTLResourceStatus
deriving DecidableEq, Repr

/-- A target resource (Pod / Service / Deployment): the fields the
discovery reconciler reads. -/
structure Target where
  name : String
  uid : Nat
  annots : List (String × String)
  deletionTimestamp : Option Int
deriving DecidableEq, Repr

/-- `ctrl.Result`. -/
structure CtrlResult where
  requeue : Bool
  requeueAfter : Int
deriving DecidableEq, Repr

/-- A store call issued by a reconciliation, in issue order. -/
inductive Act where
  | getRec (ns name : String)
  | getTarget (kind ns name : String)
  | statusUpdate (r : TTLResource)
  | update (r : TTLResource)
  | create (r : TTLResource)
  | deleteRec (r : TTLResource)
  | deleteTarget (kind ns name : String)
deriving DecidableEq, Repr

/-- Result of one reconciliation: the (ctrl.Result, error) pair. -/
abbrev RRes := CtrlResult × Option KErr

/-- A reconciliation outcome together with the trace of store calls. -/
abbrev ROut := RRes × List Act

/-- Go map lookup on a string-keyed map modelled as an association list. -/
def lookupStr (l : List (String × String)) (k : String) : Option String :=
  (l.find? (fun p => p.1 == k)).map (fun p => p.2)

/-- Decimal digit accumulator: `none` as soon as a non-digit occurs. -/
def decDigitsAux : List Char → Nat → Option Nat
  | [], acc => some acc
  | c :: rest, acc =>
    if c.isDigit then decDigitsAux rest (acc * 10 + (c.toNat - 48)) else none

/-- `strconv.Atoi`: optional sign, then one or more decimal digits and
nothing else (the 64-bit overflow failure case is out of scope for the
inputs considered here). -/
def atoi (s : String) : Except Unit Int :=
  let core : List Char → Bool → Except Unit Int := fun ds neg =>
    match ds with
    | [] => .error ()
    | _ =>
      match decDigitsAux ds 0 with
      | none => .error ()
      | some v => .ok (if neg then -(v : Int) else (v : Int))
  match s.data with
  | '-' :: rest => core rest true
  | '+' :: rest => core rest false
  | ds => core ds false

/-- `strings`-style split on the slash character, by structural
recursion (same result as splitting the string on "/"). -/
def splitSlashAux : List Char → List Char → List String
  | [], acc => [String.mk acc.reverse]
  | c :: rest, acc =>
    if c = '/' then String.mk acc.reverse :: splitSlashAux rest []
    else splitSlashAux rest (c :: acc)

/-- Split a string on "/". -/
def splitSlash (s : String) : List String := splitSlashAux s.data []

/-- `TTLAnnotationKey` constant from resource_controller.go. -/
def TTLAnnotationKey : String := "ttl.example.com/ttl-seconds"

/-- `TTLResourceLabelKey` constant from resource_controller.go. -/
def TTLResourceLabelKey : String := "ttl.example.com/managed-by"

/-- `TTLResourceLabelValue` constant from resource_controller.go. -/
def TTLResourceLabelValue : String := "resource-controller"

/-- Property vocabulary: actions that delete something from the store. -/
def isDeleteAct : Act → Bool
  | .deleteRec _ => true
  | .deleteTarget _ _ _ => true
  | _ => false

/-- The `Status.Expired = true` assignment both controllers perform
just before cascading. -/
def setExpired (r : TTLResource) : TTLResource :=
  { r with status := { r.status with expired := true } }

namespace TTLResourceReconciler

/-- Store responses for the call sites of
`TTLResourceReconciler.Reconcile` (ttlresource_controller.go): the
initial Get, the three possible `Status().Update` calls (createdAt,
expiredAt, expired) and the final Delete.  `none` means the call
succeeds. -/
structure Env where
  get0 : Except KErr TTLResource
  updCreated : Option KErr
  updExpiredAt : Option KErr
  updExpired : Option KErr
  delRec : Option KErr

/-- Steps 4-5 of `Reconcile` (lines 97-116), entered once `ExpiredAt`
is known to hold `e`: strict `now.After(expiredAt)` check, then
Status update of `expired`, then Delete; otherwise requeue after
`expiredAt - now`. -/
def expiryStep (r2 : TTLResource) (e now : Int) (env : Env) : ROut :=
  if r2.status.expired = false ∧ e < now then
    let r3 := setExpired r2
    match env.updExpired with
    | some err => ((⟨false, 0⟩, some err), [.statusUpdate r3])
    | none =>
      match env.delRec with
      | some err => ((⟨false, 0⟩, some err), [.statusUpdate r3, .deleteRec r3])
      | none => ((⟨false, 0⟩, none), [.statusUpdate r3, .deleteRec r3])
  else
    ((⟨false, e - now⟩, none), [])

/-- `TTLResourceReconciler.Reconcile` (ttlresource_controller.go,
lines 61-116).  `req` is the (namespace, name) of the request, `now`
the value of `metav1.Now()`. -/
def Reconcile (req : String × String) (now : Int) (env : Env) : ROut :=
  let acts0 : List Act := [.getRec req.1 req.2]
  match env.get0 with
  | .error e =>
    if e = KErr.notFound then ((⟨false, 0⟩, none), acts0)
    else ((⟨false, 0⟩, some e), acts0)
  | .ok r =>
    if r.spec.ttlSeconds = 0 then ((⟨false, 0⟩, none), acts0)
    else
      match r.status.createdAt with
      | none =>
        let r1 := { r with status := { r.status with createdAt := r.creationTimestamp } }
        (match env.updCreated with
         | some err => ((⟨false, 0⟩, some err), acts0 ++ [.statusUpdate r1])
         | none => ((⟨true, 0⟩, none), acts0 ++ [.statusUpdate r1]))
      | some c =>
        match r.status.expiredAt with
        | none =>
          let e := c + r.spec.ttlSeconds * nsPerSec
          let r2 := { r with status := { r.status with expiredAt := some e } }
          (match env.updExpiredAt with
           | some err => ((⟨false, 0⟩, some err), acts0 ++ [.statusUpdate r2])
           | none =>
             let step := expiryStep r2 e now env
             (step.1, acts0 ++ [.statusUpdate r2] ++ step.2))
        | some e =>
          let step := expiryStep r e now env
          (step.1, acts0 ++ step.2)

end TTLResourceReconciler

namespace ResourceReconciler

/-- Error taxonomy of `deleteOwnerResource` (resource_controller.go,
lines 441-477): apiVersion parse failure, the distinct unsupported-kind
error, or a wrapped store delete failure. -/
inductive OwnerDelErr where
  | invalidAPIVersion
  | unsupportedKind
  | deleteFailed (e : KErr)
deriving DecidableEq, Repr

/-- `schema.ParseGroupVersion`. -/
def parseGroupVersion (s : String) : Except Unit (String × String) :=
  if s = "" ∨ s = "/" then .ok ("", "")
  else
    match splitSlash s with
    | [v] => .ok ("", v)
    | [g, v] => .ok (g, v)
    | _ => .error ()

/-- The (group, version, kind) triples the switch in
`deleteOwnerResource` resolves. -/
def supportedGVK (g v kind : String) : Prop :=
  (g = "" ∧ v = "v1" ∧ (kind = "Pod" ∨ kind = "Service")) ∨
  (g = "apps" ∧ v = "v1" ∧ kind = "Deployment")

instance (g v kind : String) : Decidable (supportedGVK g v kind) := by
  unfold supportedGVK; infer_instance

/-- `deleteOwnerResource` (lines 441-477).  `delResp` is the store's
answer to the Delete call (`none` = success); the trace records the
Delete only when the kind dispatch actually issues it. -/
def deleteOwnerResource (ownerRef : OwnerReference) (ns : String)
    (delResp : Option KErr) : Except OwnerDelErr Unit × List Act :=
  match parseGroupVersion ownerRef.apiVersion with
  | .error _ => (.error .invalidAPIVersion, [])
  | .ok (g, v) =>
    if supportedGVK g v ownerRef.kind then
      let act := Act.deleteTarget ownerRef.kind ns ownerRef.name
      match delResp with
      | some KErr.notFound => (.ok (), [act])
      | some e => (.error (.deleteFailed e), [act])
      | none => (.ok (), [act])
    else
      (.error .unsupportedKind, [])

/-- Store responses for the call sites of `reconcileTTLResource`
(lines 241-410): the re-read before the batched status update, that
update, the re-reads guarding the two cascade branches, the `expired`
status update, the owner Delete, the record Delete, and the value of
the second `metav1.Now()` taken after a successful batched update. -/
structure RTEnv where
  reGet1 : Except KErr TTLResource
  updBatch : Option KErr
  reGet2 : Except KErr TTLResource
  reGet3 : Except KErr TTLResource
  updExpired : Option KErr
  delOwner : Option KErr
  delRecord : Option KErr
  now2 : Int

/-- `deleteExpiredResources` (lines 413-438): best-effort owner
deletion via `deleteOwnerResource` (its result is only logged),
then deletion of the tracking record with not-found treated as
success. -/
def deleteExpiredResources (r : TTLResource) (env : RTEnv) : ROut :=
  let ownerActs :=
    match r.ownerReferences with
    | [] => []
    | ref :: _ => (deleteOwnerResource ref r.ns env.delOwner).2
  match env.delRecord with
  | some KErr.notFound => ((⟨false, 0⟩, none), ownerActs ++ [.deleteRec r])
  | some e => ((⟨false, 0⟩, some e), ownerActs ++ [.deleteRec r])
  | none => ((⟨false, 0⟩, none), ownerActs ++ [.deleteRec r])

/-- Lines 292-298: re-apply the createdAt / expiredAt initialization
on the freshly read record before the batched status update. -/
def applyInit (l : TTLResource) : TTLResource :=
  let ca := if l.status.createdAt.isNone then l.creationTimestamp else l.status.createdAt
  match ca with
  | none => { l with status := { l.status with createdAt := none } }
  | some c =>
    let ea := if l.status.expiredAt.isNone then some (c + l.spec.ttlSeconds * nsPerSec)
              else l.status.expiredAt
    { l with status := { l.status with createdAt := some c, expiredAt := ea } }

/-- Lines 323-409 of `reconcileTTLResource`: the expiry phase run on
`current` with clock `nowX` — the already-expired cascade branch, the
`!now.Before(expiredAt)` expiry branch (each guarded by a re-read and
a UID comparison), or the timed requeue. -/
def expiryPhase (current : TTLResource) (nowX : Int) (env : RTEnv) : ROut :=
  if current.status.expired = true then
    match env.reGet2 with
    | .error KErr.notFound => ((⟨false, 0⟩, none), [.getRec current.ns current.name])
    | .error e => ((⟨false, 0⟩, some e), [.getRec current.ns current.name])
    | .ok latest =>
      if current.uid ≠ latest.uid then ((⟨false, 0⟩, none), [.getRec current.ns current.name])
      else
        let del := deleteExpiredResources latest env
        (del.1, [.getRec current.ns current.name] ++ del.2)
  else
    match current.status.expiredAt with
    | some e =>
      if e ≤ nowX then
        match env.reGet3 with
        | .error KErr.notFound => ((⟨false, 0⟩, none), [.getRec current.ns current.name])
        | .error err => ((⟨false, 0⟩, some err), [.getRec current.ns current.name])
        | .ok latest =>
          if current.uid ≠ latest.uid then
            ((⟨false, 0⟩, none), [.getRec current.ns current.name])
          else
            if latest.status.expired = false then
              let latest' := setExpired latest
              match env.updExpired with
              | some KErr.conflict =>
                ((⟨false, nsPerSec⟩, none),
                 [.getRec current.ns current.name, .statusUpdate latest'])
              | some KErr.notFound =>
                ((⟨false, 0⟩, none),
                 [.getRec current.ns current.name, .statusUpdate latest'])
              | some e2 =>
                ((⟨false, 0⟩, some e2),
                 [.getRec current.ns current.name, .statusUpdate latest'])
              | none =>
                let del := deleteExpiredResources latest' env
                (del.1, [.getRec current.ns current.name, .statusUpdate latest'] ++ del.2)
            else
              let del := deleteExpiredResources latest env
              (del.1, [.getRec current.ns current.name] ++ del.2)
      else
        ((⟨false, e - nowX⟩, none), [])
    | none => ((⟨false, 0⟩, none), [])

/-- `reconcileTTLResource` (lines 241-410).  `now` is the first
`metav1.Now()`; `env.now2` is the one re-taken after a successful
batched status update. -/
def reconcileTTLResource (r : TTLResource) (now : Int) (env : RTEnv) : ROut :=
  if r.spec.ttlSeconds = 0 then ((⟨false, 0⟩, none), [])
  else
    let ca1 := if r.status.createdAt.isNone then r.creationTimestamp else r.status.createdAt
    let needsUpdate := r.status.createdAt.isNone ∨ (r.status.expiredAt.isNone ∧ ca1.isSome)
    if needsUpdate then
      match env.reGet1 with
      | .error KErr.notFound => ((⟨false, 0⟩, none), [.getRec r.ns r.name])
      | .error e => ((⟨false, 0⟩, some e), [.getRec r.ns r.name])
      | .ok latest =>
        if r.uid ≠ latest.uid then ((⟨false, 0⟩, none), [.getRec r.ns r.name])
        else
          let latest1 := applyInit latest
          match env.updBatch with
          | some KErr.conflict =>
            ((⟨false, nsPerSec⟩, none), [.getRec r.ns r.name, .statusUpdate latest1])
          | some KErr.notFound =>
            ((⟨false, 0⟩, none), [.getRec r.ns r.name, .statusUpdate latest1])
          | some e =>
            ((⟨false, 0⟩, some e), [.getRec r.ns r.name, .statusUpdate latest1])
          | none =>
            let ph := expiryPhase latest1 env.now2 env
            (ph.1, [.getRec r.ns r.name, .statusUpdate latest1] ++ ph.2)
    else
      expiryPhase r now env

/-- Store responses for `cleanupTTLResource` (lines 211-238). -/
structure CleanupEnv where
  getCleanup : Except KErr TTLResource
  delCleanup : Option KErr

/-- `cleanupTTLResource` (lines 211-238): look up the deterministically
named record and delete it only when it carries the managed-by label. -/
def cleanupTTLResource (ns name : String) (env : CleanupEnv) : ROut :=
  let ttlResourceName := "ttl-" ++ name
  let acts0 : List Act := [.getRec ns ttlResourceName]
  match env.getCleanup with
  | .error KErr.notFound => ((⟨false, 0⟩, none), acts0)
  | .error e => ((⟨false, 0⟩, some e), acts0)
  | .ok found =>
    if lookupStr found.labels TTLResourceLabelKey = some TTLResourceLabelValue then
      match env.delCleanup with
      | some KErr.notFound => ((⟨false, 0⟩, none), acts0 ++ [.deleteRec found])
      | some e => ((⟨false, 0⟩, some e), acts0 ++ [.deleteRec found])
      | none => ((⟨false, 0⟩, none), acts0 ++ [.deleteRec found])
    else ((⟨false, 0⟩, none), acts0)

/-- Lines 145-147: the spec update applied to an existing record whose
`ttlSeconds` differs from the annotation — new spec, status fully
reset. -/
def specReset (existing : TTLResource) (ttlSeconds : Int) : TTLResource :=
  { existing with spec := ⟨ttlSeconds⟩, status := ⟨false, none, none⟩ }

/-- Store responses for the discovery `Reconcile` (lines 62-208). -/
structure DiscEnv where
  getTTL : Except KErr TTLResource
  getPod : Except KErr Target
  getSvc : Except KErr Target
  getDeploy : Except KErr Target
  getExisting : Except KErr TTLResource
  updSpec : Option KErr
  createRes : Option KErr
  cleanup : CleanupEnv
  rt : RTEnv

/-- Lines 134-207: ensure the managed record matches the parsed TTL —
update the spec (resetting status) when it differs, create the record
with the managed-by labels and owner reference when absent. -/
def ensureTTLResource (ns : String) (obj : Target) (gvk apiVersion : String)
    (ttlSeconds : Int) (env : DiscEnv) : ROut :=
  let ttlResourceName := "ttl-" ++ obj.name
  let acts0 : List Act := [.getRec ns ttlResourceName]
  match env.getExisting with
  | .ok existing =>
    if existing.spec.ttlSeconds ≠ ttlSeconds then
      let existing' := specReset existing ttlSeconds
      match env.updSpec with
      | some KErr.conflict => ((⟨false, 0⟩, none), acts0 ++ [.update existing'])
      | some e => ((⟨false, 0⟩, some e), acts0 ++ [.update existing'])
      | none => ((⟨false, 0⟩, none), acts0 ++ [.update existing'])
    else ((⟨false, 0⟩, none), acts0)
  | .error KErr.notFound =>
    let newRec : TTLResource :=
      { name := ttlResourceName
        ns := ns
        uid := 0
        creationTimestamp := none
        labels := [(TTLResourceLabelKey, TTLResourceLabelValue),
                   ("app.kubernetes.io/managed-by", "ttl-operator")]
        ownerReferences := [⟨apiVersion, gvk, obj.name, obj.uid⟩]
        spec := ⟨ttlSeconds⟩
        status := ⟨false, none, none⟩ }
    match env.createRes with
    | some KErr.alreadyExists => ((⟨false, 0⟩, none), acts0 ++ [.create newRec])
    | some e => ((⟨false, 0⟩, some e), acts0 ++ [.create newRec])
    | none => ((⟨false, 0⟩, none), acts0 ++ [.create newRec])
  | .error e => ((⟨false, 0⟩, some e), acts0)

/-- Lines 112-207 once a target has been resolved: deletion-in-progress
and missing-annotation trigger cleanup; an unparsable or non-positive
annotation value is ignored with plain success; otherwise ensure the
managed record. -/
def handleTarget (ns name : String) (obj : Target) (gvk apiVersion : String)
    (env : DiscEnv) : ROut :=
  if obj.deletionTimestamp.isSome then cleanupTTLResource ns name env.cleanup
  else
    match lookupStr obj.annots TTLAnnotationKey with
    | none => cleanupTTLResource ns name env.cleanup
    | some s =>
      match atoi s with
      | .error _ => ((⟨false, 0⟩, none), [])
      | .ok ttlSeconds =>
        if ttlSeconds ≤ 0 then ((⟨false, 0⟩, none), [])
        else ensureTTLResource ns obj gvk apiVersion ttlSeconds env

/-- `ResourceReconciler.Reconcile` (lines 62-208): try the key as a
TTLResource and delegate; otherwise probe Pod, Service, Deployment in
order; when none resolves, reverse-clean the managed record. -/
def Reconcile (req : String × String) (now : Int) (env : DiscEnv) : ROut :=
  let ns := req.1
  let name := req.2
  match env.getTTL with
  | .ok r =>
    let sub := reconcileTTLResource r now env.rt
    (sub.1, [.getRec ns name] ++ sub.2)
  | .error e0 =>
    if e0 ≠ KErr.notFound then ((⟨false, 0⟩, some e0), [.getRec ns name])
    else
      let acts1 : List Act := [.getRec ns name, .getTarget "Pod" ns name]
      match env.getPod with
      | .ok pod =>
        let sub := handleTarget ns name pod "Pod" "v1" env
        (sub.1, acts1 ++ sub.2)
      | .error ep =>
        if ep ≠ KErr.notFound then ((⟨false, 0⟩, some ep), acts1)
        else
          let acts2 := acts1 ++ [Act.getTarget "Service" ns name]
          match env.getSvc with
          | .ok svc =>
            let sub := handleTarget ns name svc "Service" "v1" env
            (sub.1, acts2 ++ sub.2)
          | .error es =>
            if es ≠ KErr.notFound then ((⟨false, 0⟩, some es), acts2)
            else
              let acts3 := acts2 ++ [Act.getTarget "Deployment" ns name]
              match env.getDeploy with
              | .ok dep =>
                let sub := handleTarget ns name dep "Deployment" "apps/v1" env
                (sub.1, acts3 ++ sub.2)
              | .error ed =>
                if ed ≠ KErr.notFound then ((⟨false, 0⟩, some ed), acts3)
                else
                  let sub := cleanupTTLResource ns name env.cleanup
                  (sub.1, acts3 ++ sub.2)

end ResourceReconciler

/-!
Sample objects used by concrete witnesses and counterexamples.
-/

/-- A Pod owner reference as the discovery reconciler records it. -/
def sampleOwner : OwnerReference := ⟨"v1", "Pod", "web", 77⟩

/-- A tracking record named `ttl-web` in namespace `default` carrying
the managed-by label, with the given UID, creation timestamp, owner
references, TTL and status fields. -/
def mkTTLRec (uid : Nat) (ct : MTime) (owners : List OwnerReference)
    (ttl : Int) (exp : Bool) (ca : MTime) (ea : Option Int) : TTLResource :=
  { name := "ttl-web", ns := "default", uid := uid, creationTimestamp := ct,
    labels := [(TTLResourceLabelKey, TTLResourceLabelValue)],
    ownerReferences := owners, spec := ⟨ttl⟩, status := ⟨exp, ca, ea⟩ }

/-- A Scheduled record: created at `c`, due at `c + S` seconds, not expired. -/
def sched (S c : Int) : TTLResource :=
  mkTTLRec 5 (some c) [sampleOwner] S false (some c) (some (c + S * nsPerSec))

/-- The expired twin of `sched`. -/
def schedX (S c : Int) : TTLResource :=
  mkTTLRec 5 (some c) [sampleOwner] S true (some c) (some (c + S * nsPerSec))

/-- Standalone-reconciler environment in which every store call
succeeds and the initial Get returns `r`. -/
def okSAEnv (r : TTLResource) : TTLResourceReconciler.Env :=
  ⟨.ok r, none, none, none, none⟩

/-- Delegation-path environment in which every store call succeeds,
every re-read returns `l`, and the re-taken clock reads `n2`. -/
def okRTEnv (l : TTLResource) (n2 : Int) : ResourceReconciler.RTEnv :=
  ⟨.ok l, none, .ok l, .ok l, none, none, none, n2⟩

/-- Deleting the sample Pod owner with a succeeding store resolves the
kind and issues the one target deletion. -/
theorem sampleOwner_del_ok (ns : String) :
    ResourceReconciler.deleteOwnerResource sampleOwner ns none =
      (Except.ok (), [Act.deleteTarget "Pod" ns "web"]) := by rfl

/-!
Claim theorems.
-/

/-- Claim C1, counterexample.  A record Scheduled at T0 = 0 with
S = 5 s, reconciled by the standalone reconciler at exactly
now = T0 + S: because the code's expiry test is the strict
`now.Time.After(expiredAt.Time)`, the record is NOT marked expired;
the invocation returns success with a zero requeue delay and makes no
mutating store call, although the claim requires the first invocation
at a time greater than OR EQUAL to T0+S to mark it expired and
cascade. -/
theorem c1_counterexample :
    TTLResourceReconciler.Reconcile ("default", "ttl-web") (5 * nsPerSec)
      (okSAEnv (sched 5 0)) =
      ((⟨false, 0⟩, none), [Act.getRec "default" "ttl-web"]) := by decide

/-- Claim C1, amended.  For a record Scheduled at `c` with TTL `S > 0`
(so `expiredAt = c + S` seconds): a reconciliation before the deadline
returns success with a requeue delay of exactly `expiredAt - now`; the
standalone reconciler marks the record expired and deletes it on the
first invocation STRICTLY after `c + S` (at exactly `c + S` it returns
success with a zero delay and no mutation); the ResourceReconciler's
delegation path expires and cascades (owner target then record) at any
invocation at or after `c + S`. -/
theorem c1_timer_amended (c S now : Int) (hS : 0 < S) :
    (now < c + S * nsPerSec →
      TTLResourceReconciler.Reconcile ("default", "ttl-web") now (okSAEnv (sched S c)) =
        ((⟨false, c + S * nsPerSec - now⟩, none), [Act.getRec "default" "ttl-web"])) ∧
    (c + S * nsPerSec < now →
      TTLResourceReconciler.Reconcile ("default", "ttl-web") now (okSAEnv (sched S c)) =
        ((⟨false, 0⟩, none),
         [Act.getRec "default" "ttl-web", Act.statusUpdate (schedX S c),
          Act.deleteRec (schedX S c)])) ∧
    (c + S * nsPerSec ≤ now →
      ResourceReconciler.reconcileTTLResource (sched S c) now (okRTEnv (sched S c) now) =
        ((⟨false, 0⟩, none),
         [Act.getRec "default" "ttl-web", Act.statusUpdate (schedX S c),
          Act.deleteTarget "Pod" "default" "web", Act.deleteRec (schedX S c)])) := by
  have hne : S ≠ 0 := by omega
  refine ⟨?_, ?_, ?_⟩
  · intro h
    have hlt : ¬ (c + S * nsPerSec < now) := by omega
    simp [TTLResourceReconciler.Reconcile, TTLResourceReconciler.expiryStep,
          okSAEnv, sched, schedX, mkTTLRec, hne, hlt]
  · intro h
    simp [TTLResourceReconciler.Reconcile, TTLResourceReconciler.expiryStep,
          okSAEnv, sched, schedX, mkTTLRec, setExpired, hne, h]
  · intro h
    simp [ResourceReconciler.reconcileTTLResource, ResourceReconciler.expiryPhase,
          ResourceReconciler.deleteExpiredResources, sampleOwner_del_ok,
          okRTEnv, sched, schedX, mkTTLRec, setExpired, hne, h]

/-- Concrete instance of `c1_timer_amended`: with `c = 0`, `S = 5`, at
`now = 7` seconds the delegation path cascades. -/
theorem c1_timer_amended_witness :
    0 + 5 * nsPerSec ≤ 7 * nsPerSec ∧
    ResourceReconciler.reconcileTTLResource (sched 5 0) (7 * nsPerSec)
        (okRTEnv (sched 5 0) (7 * nsPerSec)) =
      ((⟨false, 0⟩, none),
       [Act.getRec "default" "ttl-web", Act.statusUpdate (schedX 5 0),
        Act.deleteTarget "Pod" "default" "web", Act.deleteRec (schedX 5 0)]) :=
  ⟨by decide, (c1_timer_amended 0 5 (7 * nsPerSec) (by decide)).2.2 (by decide)⟩

/-- Claim C2, confirmed.  Unset is absorbing: a tracking record whose
`spec.ttlSeconds` is 0 is reconciled to plain success by both
reconcilers without a single mutating store call (no status update, no
delete), whatever the rest of the record, the store's responses and
the clock. -/
theorem c2_unset_absorbing (r : TTLResource) (now : Int)
    (saEnv : TTLResourceReconciler.Env) (rtEnv : ResourceReconciler.RTEnv)
    (h0 : r.spec.ttlSeconds = 0) (hget : saEnv.get0 = .ok r) :
    TTLResourceReconciler.Reconcile (r.ns, r.name) now saEnv =
      ((⟨false, 0⟩, none), [Act.getRec r.ns r.name]) ∧
    ResourceReconciler.reconcileTTLResource r now rtEnv =
      ((⟨false, 0⟩, none), []) := by
  constructor
  · unfold TTLResourceReconciler.Reconcile
    rw [hget]
    simp [h0]
  · unfold ResourceReconciler.reconcileTTLResource
    simp [h0]

/-- Concrete instance of `c2_unset_absorbing` at `ttlSeconds = 0`. -/
theorem c2_unset_absorbing_witness :
    TTLResourceReconciler.Reconcile ("default", "ttl-web") 99
      (okSAEnv (mkTTLRec 5 (some 0) [sampleOwner] 0 false none none)) =
      ((⟨false, 0⟩, none), [Act.getRec "default" "ttl-web"]) ∧
    ResourceReconciler.reconcileTTLResource
      (mkTTLRec 5 (some 0) [sampleOwner] 0 false none none) 99
      (okRTEnv (mkTTLRec 5 (some 0) [sampleOwner] 0 false none none) 99) =
      ((⟨false, 0⟩, none), []) :=
  c2_unset_absorbing (mkTTLRec 5 (some 0) [sampleOwner] 0 false none none) 99
    (okSAEnv (mkTTLRec 5 (some 0) [sampleOwner] 0 false none none))
    (okRTEnv (mkTTLRec 5 (some 0) [sampleOwner] 0 false none none) 99) rfl rfl

/-- Claim C3, counterexample.  The standalone reconciler's first
status update (recording createdAt) answered with a Conflict: the
reconciliation returns the Conflict as an error, with no requeue
delay, instead of the claimed success with a short fixed delay. -/
theorem c3_counterexample :
    TTLResourceReconciler.Reconcile ("default", "ttl-web") 0
      ⟨.ok (mkTTLRec 5 (some 0) [sampleOwner] 5 false none none),
       some KErr.conflict, none, none, none⟩ =
      ((⟨false, 0⟩, some KErr.conflict),
       [Act.getRec "default" "ttl-web",
        Act.statusUpdate (mkTTLRec 5 (some 0) [sampleOwner] 5 false (some 0) none)]) := by
  decide

/-- Claim C3, amended.  Conflict handling differs per reconciler: the
ResourceReconciler's delegation path answers a Conflict on its batched
status update with success and a fixed one-second requeue, while the
standalone TTLResourceReconciler propagates a Conflict on its status
update as an error. -/
theorem c3_conflict_amended (r l : TTLResource) (now : Int)
    (env : ResourceReconciler.RTEnv) (saEnv : TTLResourceReconciler.Env)
    (httl : r.spec.ttlSeconds ≠ 0) (hca : r.status.createdAt = none)
    (hget1 : env.reGet1 = .ok l) (huid : l.uid = r.uid)
    (hconf : env.updBatch = some KErr.conflict)
    (hget0 : saEnv.get0 = .ok r) (hconf0 : saEnv.updCreated = some KErr.conflict) :
    ResourceReconciler.reconcileTTLResource r now env =
      ((⟨false, nsPerSec⟩, none),
       [Act.getRec r.ns r.name, Act.statusUpdate (ResourceReconciler.applyInit l)]) ∧
    (TTLResourceReconciler.Reconcile (r.ns, r.name) now saEnv).1.2 =
      some KErr.conflict := by
  constructor
  · unfold ResourceReconciler.reconcileTTLResource
    rw [hget1]
    simp [httl, hca, huid, hconf]
  · unfold TTLResourceReconciler.Reconcile
    rw [hget0]
    simp [httl, hca, hconf0]

/-- Concrete instance of `c3_conflict_amended`. -/
theorem c3_conflict_amended_witness :
    ResourceReconciler.reconcileTTLResource
        (mkTTLRec 5 (some 0) [sampleOwner] 5 false none none) 0
        ⟨.ok (mkTTLRec 5 (some 0) [sampleOwner] 5 false none none),
         some KErr.conflict,
         .ok (mkTTLRec 5 (some 0) [sampleOwner] 5 false none none),
         .ok (mkTTLRec 5 (some 0) [sampleOwner] 5 false none none),
         none, none, none, 0⟩ =
      ((⟨false, nsPerSec⟩, none),
       [Act.getRec "default" "ttl-web",
        Act.statusUpdate (ResourceReconciler.applyInit
          (mkTTLRec 5 (some 0) [sampleOwner] 5 false none none))]) ∧
    (TTLResourceReconciler.Reconcile ("default", "ttl-web") 0
      ⟨.ok (mkTTLRec 5 (some 0) [sampleOwner] 5 false none none),
       some KErr.conflict, none, none, none⟩).1.2 = some KErr.conflict :=
  c3_conflict_amended (mkTTLRec 5 (some 0) [sampleOwner] 5 false none none)
    (mkTTLRec 5 (some 0) [sampleOwner] 5 false none none) 0
    ⟨.ok (mkTTLRec 5 (some 0) [sampleOwner] 5 false none none),
     some KErr.conflict,
     .ok (mkTTLRec 5 (some 0) [sampleOwner] 5 false none none),
     .ok (mkTTLRec 5 (some 0) [sampleOwner] 5 false none none),
     none, none, none, 0⟩
    ⟨.ok (mkTTLRec 5 (some 0) [sampleOwner] 5 false none none),
     some KErr.conflict, none, none, none⟩
    (by decide) rfl rfl rfl rfl rfl rfl

/-- Claim C4, counterexample.  A full expiry run of the standalone
reconciler: the trace carries the cascade-triggering writes (the
`expired` status update and the record deletion) while containing a
single Get — the initial read — so no re-read and no UID verification
precede the cascade, contrary to the claim. -/
theorem c4_counterexample :
    ((TTLResourceReconciler.Reconcile ("default", "ttl-web") (6 * nsPerSec)
        (okSAEnv (sched 5 0))).2).count (Act.getRec "default" "ttl-web") = 1 ∧
    Act.deleteRec (schedX 5 0) ∈
      (TTLResourceReconciler.Reconcile ("default", "ttl-web") (6 * nsPerSec)
        (okSAEnv (sched 5 0))).2 ∧
    (TTLResourceReconciler.Reconcile ("default", "ttl-web") (6 * nsPerSec)
        (okSAEnv (sched 5 0))).1 = (⟨false, 0⟩, none) := by
  decide

/-- Claim C4, amended.  The UID guard exists only in the
ResourceReconciler's delegation path, where it is systematic: whenever
the re-reads guarding its write/cascade branches return a record whose
UID differs from the one in hand, the reconciliation returns success
and its trace contains no deletion of any kind.  The standalone
reconciler performs no re-read and no UID check before cascading (see
the counterexample). -/
theorem c4_uid_guard_amended (r l1 l2 l3 : TTLResource) (now : Int)
    (env : ResourceReconciler.RTEnv)
    (h1 : env.reGet1 = .ok l1) (h2 : env.reGet2 = .ok l2) (h3 : env.reGet3 = .ok l3)
    (n1 : l1.uid ≠ r.uid) (n2 : l2.uid ≠ r.uid) (n3 : l3.uid ≠ r.uid) :
    (ResourceReconciler.reconcileTTLResource r now env).1.2 = none ∧
    (ResourceReconciler.reconcileTTLResource r now env).2.all
      (fun a => !isDeleteAct a) = true := by
  have n1' : r.uid ≠ l1.uid := fun h => n1 h.symm
  have n2' : r.uid ≠ l2.uid := fun h => n2 h.symm
  have n3' : r.uid ≠ l3.uid := fun h => n3 h.symm
  by_cases h0 : r.spec.ttlSeconds = 0
  · simp [ResourceReconciler.reconcileTTLResource, h0, isDeleteAct]
  · unfold ResourceReconciler.reconcileTTLResource ResourceReconciler.expiryPhase
    rw [h1, h2, h3]
    rcases hCA : r.status.createdAt with _ | c
    · simp [h0, hCA, n1', isDeleteAct]
    · rcases hEA : r.status.expiredAt with _ | e
      · simp [h0, hCA, hEA, n1', isDeleteAct]
      · cases hE : r.status.expired
        · by_cases hle : e ≤ now
          · simp [h0, hCA, hEA, hE, hle, n3', isDeleteAct]
          · simp [h0, hCA, hEA, hE, hle, isDeleteAct]
        · simp [h0, hCA, hEA, hE, n2', isDeleteAct]

/-- A record with the same name as `sched` records but a different UID
(the shape left by a delete-and-recreate under the same name). -/
def recreated : TTLResource :=
  mkTTLRec 6 (some 0) [sampleOwner] 5 false (some 0) none

/-- Concrete instance of `c4_uid_guard_amended`: every re-read sees the
recreated record (UID 6 instead of 5); nothing is deleted. -/
theorem c4_uid_guard_amended_witness :
    (ResourceReconciler.reconcileTTLResource (sched 5 0) 99
      ⟨.ok recreated, none, .ok recreated, .ok recreated, none, none, none, 0⟩).1.2 =
      none ∧
    (ResourceReconciler.reconcileTTLResource (sched 5 0) 99
      ⟨.ok recreated, none, .ok recreated, .ok recreated, none, none, none, 0⟩).2.all
      (fun a => !isDeleteAct a) = true :=
  c4_uid_guard_amended (sched 5 0) recreated recreated recreated 99
    ⟨.ok recreated, none, .ok recreated, .ok recreated, none, none, none, 0⟩
    rfl rfl rfl (by decide) (by decide) (by decide)

/-- A Pod target named `web` carrying the TTL annotation value `v`. -/
def podWith (v : String) : Target := ⟨"web", 77, [(TTLAnnotationKey, v)], none⟩

/-- A Pod target named `web` with no TTL annotation. -/
def podPlain : Target := ⟨"web", 77, [], none⟩

/-- A delegation environment that is never consulted (for runs that
stay on the discovery side). -/
def unusedRT : ResourceReconciler.RTEnv :=
  ⟨.error KErr.notFound, none, .error KErr.notFound, .error KErr.notFound,
   none, none, none, 0⟩

/-- A discovery environment: the request key is not a TTLResource, it
resolves as the given Pod, the managed record `sched 5 0` exists under
the deterministic name (both for the existing-record check and for
cleanup), and every write succeeds. -/
def discEnv (t : Target) : ResourceReconciler.DiscEnv :=
  ⟨.error KErr.notFound, .ok t, .error KErr.notFound, .error KErr.notFound,
   .ok (sched 5 0), none, none, ⟨.ok (sched 5 0), none⟩, unusedRT⟩

/-- Claim C5, counterexample.  Two discovery runs against the same
store state (a managed tracking record exists under the deterministic
name): with the annotation ABSENT the reconciler performs reverse
cleanup and deletes the record, but with the malformed annotation
value "abc" it returns success WITHOUT any cleanup — it never even
reads the tracking record — so absence and malformation are not
handled identically. -/
theorem c5_counterexample :
    ResourceReconciler.Reconcile ("default", "web") 0 (discEnv (podWith "abc")) =
      ((⟨false, 0⟩, none),
       [Act.getRec "default" "web", Act.getTarget "Pod" "default" "web"]) ∧
    ResourceReconciler.Reconcile ("default", "web") 0 (discEnv podPlain) =
      ((⟨false, 0⟩, none),
       [Act.getRec "default" "web", Act.getTarget "Pod" "default" "web",
        Act.getRec "default" "ttl-web", Act.deleteRec (sched 5 0)]) := by
  decide

/-- Claim C5, amended.  For a resolved target that is not being
deleted: an ABSENT TTL annotation triggers reverse cleanup (the
deterministically named record is read and, when managed, deleted),
but a PRESENT annotation whose value is non-integer or non-positive is
ignored — the reconciliation returns plain success without touching
the tracking record. -/
theorem c5_cleanup_amended (t : Target) (ns nm s : String) (now n : Int)
    (env : ResourceReconciler.DiscEnv)
    (hTTL : env.getTTL = .error KErr.notFound)
    (hPod : env.getPod = .ok t)
    (hdel : t.deletionTimestamp = none) :
    (lookupStr t.annots TTLAnnotationKey = none →
      ResourceReconciler.Reconcile (ns, nm) now env =
        ((ResourceReconciler.cleanupTTLResource ns nm env.cleanup).1,
         [Act.getRec ns nm, Act.getTarget "Pod" ns nm] ++
           (ResourceReconciler.cleanupTTLResource ns nm env.cleanup).2)) ∧
    (lookupStr t.annots TTLAnnotationKey = some s → atoi s = .error () →
      ResourceReconciler.Reconcile (ns, nm) now env =
        ((⟨false, 0⟩, none), [Act.getRec ns nm, Act.getTarget "Pod" ns nm])) ∧
    (lookupStr t.annots TTLAnnotationKey = some s → atoi s = .ok n → n ≤ 0 →
      ResourceReconciler.Reconcile (ns, nm) now env =
        ((⟨false, 0⟩, none), [Act.getRec ns nm, Act.getTarget "Pod" ns nm])) := by
  refine ⟨?_, ?_, ?_⟩
  · intro hann
    unfold ResourceReconciler.Reconcile ResourceReconciler.handleTarget
    rw [hTTL, hPod]
    simp [hdel, hann]
  · intro hann hbad
    unfold ResourceReconciler.Reconcile ResourceReconciler.handleTarget
    rw [hTTL, hPod]
    simp [hdel, hann, hbad]
  · intro hann hok hle
    unfold ResourceReconciler.Reconcile ResourceReconciler.handleTarget
    rw [hTTL, hPod]
    simp [hdel, hann, hok, hle]

/-- Concrete instance of `c5_cleanup_amended` at the non-positive
annotation value "-7". -/
theorem c5_cleanup_amended_witness :
    (lookupStr (podWith "-7").annots TTLAnnotationKey = none →
      ResourceReconciler.Reconcile ("default", "web") 0 (discEnv (podWith "-7")) =
        ((ResourceReconciler.cleanupTTLResource "default" "web"
            (discEnv (podWith "-7")).cleanup).1,
         [Act.getRec "default" "web", Act.getTarget "Pod" "default" "web"] ++
           (ResourceReconciler.cleanupTTLResource "default" "web"
              (discEnv (podWith "-7")).cleanup).2)) ∧
    (lookupStr (podWith "-7").annots TTLAnnotationKey = some "-7" →
      atoi "-7" = .error () →
      ResourceReconciler.Reconcile ("default", "web") 0 (discEnv (podWith "-7")) =
        ((⟨false, 0⟩, none),
         [Act.getRec "default" "web", Act.getTarget "Pod" "default" "web"])) ∧
    (lookupStr (podWith "-7").annots TTLAnnotationKey = some "-7" →
      atoi "-7" = .ok (-7) → (-7 : Int) ≤ 0 →
      ResourceReconciler.Reconcile ("default", "web") 0 (discEnv (podWith "-7")) =
        ((⟨false, 0⟩, none),
         [Act.getRec "default" "web", Act.getTarget "Pod" "default" "web"])) :=
  c5_cleanup_amended (podWith "-7") "default" "web" "-7" 0 (-7)
    (discEnv (podWith "-7")) rfl rfl rfl

/-- Claim C6, confirmed.  When the annotation parses to a TTL `n > 0`
that differs from the existing managed record's spec, discovery writes
the record back with the new spec and a fully reset status (`expired =
false`, createdAt and expiredAt cleared); the next delegation-path
reconciliation of that record — at ANY clock value `now2` — persists a
status whose createdAt is the record's original creation instant `t0`
and whose expiredAt is `t0 + n` seconds, not a function of the update
time. -/
theorem c6_spec_change_reset (ns nm s : String) (t : Target) (ex : TTLResource)
    (n t0 now now2 : Int) (env : ResourceReconciler.DiscEnv)
    (rt : ResourceReconciler.RTEnv)
    (hTTL : env.getTTL = .error KErr.notFound) (hPod : env.getPod = .ok t)
    (hdel : t.deletionTimestamp = none)
    (hann : lookupStr t.annots TTLAnnotationKey = some s)
    (hatoi : atoi s = .ok n) (hn : 0 < n)
    (hex : env.getExisting = .ok ex) (hdiff : ex.spec.ttlSeconds ≠ n)
    (hupd : env.updSpec = none)
    (hct : ex.creationTimestamp = some t0)
    (hget1 : rt.reGet1 = .ok (ResourceReconciler.specReset ex n))
    (hbatch : rt.updBatch = none) :
    Act.update (ResourceReconciler.specReset ex n) ∈
      (ResourceReconciler.Reconcile (ns, nm) now env).2 ∧
    (ResourceReconciler.specReset ex n).status = ⟨false, none, none⟩ ∧
    Act.statusUpdate (ResourceReconciler.applyInit (ResourceReconciler.specReset ex n)) ∈
      (ResourceReconciler.reconcileTTLResource
        (ResourceReconciler.specReset ex n) now2 rt).2 ∧
    (ResourceReconciler.applyInit (ResourceReconciler.specReset ex n)).status.createdAt =
      some t0 ∧
    (ResourceReconciler.applyInit (ResourceReconciler.specReset ex n)).status.expiredAt =
      some (t0 + n * nsPerSec) := by
  have hne : n ≠ 0 := by omega
  refine ⟨?_, rfl, ?_, ?_, ?_⟩
  · unfold ResourceReconciler.Reconcile ResourceReconciler.handleTarget
      ResourceReconciler.ensureTTLResource
    rw [hTTL, hPod]
    simp [hdel, hann, hatoi, hex, hupd, hdiff, show ¬ (n ≤ 0) from by omega]
  · unfold ResourceReconciler.reconcileTTLResource
    rw [hget1]
    simp [ResourceReconciler.specReset, hne, hbatch]
  · simp [ResourceReconciler.applyInit, ResourceReconciler.specReset, hct]
  · simp [ResourceReconciler.applyInit, ResourceReconciler.specReset, hct]

/-- Concrete instance of `c6_spec_change_reset`: annotation "7" against
an existing managed record with TTL 5 created at instant 0. -/
theorem c6_spec_change_reset_witness :
    Act.update (ResourceReconciler.specReset (sched 5 0) 7) ∈
      (ResourceReconciler.Reconcile ("default", "web") 3 (discEnv (podWith "7"))).2 ∧
    (ResourceReconciler.specReset (sched 5 0) 7).status = ⟨false, none, none⟩ ∧
    Act.statusUpdate (ResourceReconciler.applyInit
        (ResourceReconciler.specReset (sched 5 0) 7)) ∈
      (ResourceReconciler.reconcileTTLResource (ResourceReconciler.specReset (sched 5 0) 7)
        991 (okRTEnv (ResourceReconciler.specReset (sched 5 0) 7) 17)).2 ∧
    (ResourceReconciler.applyInit
        (ResourceReconciler.specReset (sched 5 0) 7)).status.createdAt = some 0 ∧
    (ResourceReconciler.applyInit
        (ResourceReconciler.specReset (sched 5 0) 7)).status.expiredAt =
      some (0 + 7 * nsPerSec) :=
  c6_spec_change_reset "default" "web" "7" (podWith "7") (sched 5 0) 7 0 3 991
    (discEnv (podWith "7"))
    (okRTEnv (ResourceReconciler.specReset (sched 5 0) 7) 17)
    rfl rfl rfl rfl rfl (by decide) rfl (by decide) rfl rfl rfl rfl

/-- Claim C7, counterexample.  First observation of a record (createdAt
unset, TTL 5 s) through the ResourceReconciler's delegation path: the
single persisted status update carries BOTH createdAt and expiredAt
(the written object equals the fully Scheduled `sched 5 0`), and the
pass continues to the expiry computation, returning a timed requeue of
3 s rather than the claimed bare re-observe instruction. -/
theorem c7_counterexample :
    ResourceReconciler.reconcileTTLResource
      (mkTTLRec 5 (some 0) [sampleOwner] 5 false none none) 0
      (okRTEnv (mkTTLRec 5 (some 0) [sampleOwner] 5 false none none) (2 * nsPerSec)) =
      ((⟨false, 3 * nsPerSec⟩, none),
       [Act.getRec "default" "ttl-web", Act.statusUpdate (sched 5 0)]) := by
  decide

/-- Claim C7, amended.  On first observation (createdAt unset, TTL
positive, expiredAt unset): the standalone reconciler persists only
the createdAt mutation and returns `Requeue: true`; the delegation
path instead persists createdAt AND expiredAt in one status update and
continues in the same pass to the expiry check (here, the record is
not yet due, so the pass ends in a timed requeue of exactly
`expiredAt - now2`). -/
theorem c7_first_observation_amended (r : TTLResource) (now ct0 : Int)
    (saEnv : TTLResourceReconciler.Env) (env : ResourceReconciler.RTEnv)
    (hpos : 0 < r.spec.ttlSeconds)
    (hca : r.status.createdAt = none) (hea : r.status.expiredAt = none)
    (hexp : r.status.expired = false)
    (hct : r.creationTimestamp = some ct0)
    (hget : saEnv.get0 = .ok r) (hupd : saEnv.updCreated = none)
    (hget1 : env.reGet1 = .ok r) (hbatch : env.updBatch = none)
    (hnot : env.now2 < ct0 + r.spec.ttlSeconds * nsPerSec) :
    TTLResourceReconciler.Reconcile (r.ns, r.name) now saEnv =
      ((⟨true, 0⟩, none),
       [Act.getRec r.ns r.name,
        Act.statusUpdate { r with status := { r.status with createdAt := some ct0 } }]) ∧
    ResourceReconciler.reconcileTTLResource r now env =
      ((⟨false, ct0 + r.spec.ttlSeconds * nsPerSec - env.now2⟩, none),
       [Act.getRec r.ns r.name, Act.statusUpdate (ResourceReconciler.applyInit r)]) ∧
    (ResourceReconciler.applyInit r).status.createdAt = some ct0 ∧
    (ResourceReconciler.applyInit r).status.expiredAt =
      some (ct0 + r.spec.ttlSeconds * nsPerSec) := by
  have hne : r.spec.ttlSeconds ≠ 0 := by omega
  have hnle : ¬ (ct0 + r.spec.ttlSeconds * nsPerSec ≤ env.now2) := by omega
  refine ⟨?_, ?_, ?_, ?_⟩
  · unfold TTLResourceReconciler.Reconcile
    rw [hget]
    simp [hne, hca, hct, hupd]
  · unfold ResourceReconciler.reconcileTTLResource ResourceReconciler.expiryPhase
    rw [hget1]
    simp [ResourceReconciler.applyInit, hne, hca, hea, hexp, hct, hbatch, hnle]
  · simp [ResourceReconciler.applyInit, hca, hea, hct]
  · simp [ResourceReconciler.applyInit, hca, hea, hct]

/-- Concrete instance of `c7_first_observation_amended`. -/
theorem c7_first_observation_amended_witness :
    TTLResourceReconciler.Reconcile ("default", "ttl-web") 17
      (okSAEnv (mkTTLRec 5 (some 0) [sampleOwner] 5 false none none)) =
      ((⟨true, 0⟩, none),
       [Act.getRec "default" "ttl-web",
        Act.statusUpdate { mkTTLRec 5 (some 0) [sampleOwner] 5 false none none with
          status := { (mkTTLRec 5 (some 0) [sampleOwner] 5 false none none).status with
            createdAt := some 0 } }]) ∧
    ResourceReconciler.reconcileTTLResource
      (mkTTLRec 5 (some 0) [sampleOwner] 5 false none none) 17
      (okRTEnv (mkTTLRec 5 (some 0) [sampleOwner] 5 false none none) (2 * nsPerSec)) =
      ((⟨false, 0 + (mkTTLRec 5 (some 0) [sampleOwner] 5 false none none).spec.ttlSeconds *
          nsPerSec - (okRTEnv (mkTTLRec 5 (some 0) [sampleOwner] 5 false none none)
            (2 * nsPerSec)).now2⟩, none),
       [Act.getRec "default" "ttl-web",
        Act.statusUpdate (ResourceReconciler.applyInit
          (mkTTLRec 5 (some 0) [sampleOwner] 5 false none none))]) ∧
    (ResourceReconciler.applyInit
        (mkTTLRec 5 (some 0) [sampleOwner] 5 false none none)).status.createdAt = some 0 ∧
    (ResourceReconciler.applyInit
        (mkTTLRec 5 (some 0) [sampleOwner] 5 false none none)).status.expiredAt =
      some (0 + (mkTTLRec 5 (some 0) [sampleOwner] 5 false none none).spec.ttlSeconds *
        nsPerSec) :=
  c7_first_observation_amended (mkTTLRec 5 (some 0) [sampleOwner] 5 false none none) 17 0
    (okSAEnv (mkTTLRec 5 (some 0) [sampleOwner] 5 false none none))
    (okRTEnv (mkTTLRec 5 (some 0) [sampleOwner] 5 false none none) (2 * nsPerSec))
    (by decide) rfl rfl rfl rfl rfl rfl rfl rfl (by decide)

/-- Claim C8, counterexample.  The resolver itself converts a
not-found answer on the owner Delete into success: called with a
supported Pod reference and a store answering NotFound, the function
returns `ok`, not the raw not-found condition the claim says it
surfaces. -/
theorem c8_counterexample :
    ResourceReconciler.deleteOwnerResource sampleOwner "default" (some KErr.notFound) =
      (Except.ok (), [Act.deleteTarget "Pod" "default" "web"]) := by rfl

/-- Claim C8, amended.  `deleteOwnerResource` converts not-found on the
target Delete into success ITSELF (its caller never sees it); an
unsupported (group, version, kind) triple fails with the distinct
unsupported-kind error; and the calling cascade step is best-effort —
whatever the owner deletion outcome, the tracking record's own Delete
is still issued. -/
theorem c8_owner_resolver_amended (ref1 ref2 : OwnerReference) (ns : String)
    (tr0 : TTLResource) (env : ResourceReconciler.RTEnv) (g1 v1 g2 v2 : String)
    (hp1 : ResourceReconciler.parseGroupVersion ref1.apiVersion = .ok (g1, v1))
    (hs1 : ResourceReconciler.supportedGVK g1 v1 ref1.kind)
    (hp2 : ResourceReconciler.parseGroupVersion ref2.apiVersion = .ok (g2, v2))
    (hs2 : ¬ ResourceReconciler.supportedGVK g2 v2 ref2.kind) :
    (ResourceReconciler.deleteOwnerResource ref1 ns (some KErr.notFound)).1 =
      .ok () ∧
    (ResourceReconciler.deleteOwnerResource ref2 ns (some KErr.notFound)).1 =
      .error ResourceReconciler.OwnerDelErr.unsupportedKind ∧
    Act.deleteRec tr0 ∈ (ResourceReconciler.deleteExpiredResources tr0 env).2 := by
  refine ⟨?_, ?_, ?_⟩
  · unfold ResourceReconciler.deleteOwnerResource
    rw [hp1]
    simp [hs1]
  · unfold ResourceReconciler.deleteOwnerResource
    rw [hp2]
    simp [hs2]
  · unfold ResourceReconciler.deleteExpiredResources
    rcases h : env.delRecord with _ | k
    · simp [h]
    · cases k <;> simp [h]

/-- Concrete instance of `c8_owner_resolver_amended`: a Pod reference
versus an unsupported `batch/v1` Job reference. -/
theorem c8_owner_resolver_amended_witness :
    (ResourceReconciler.deleteOwnerResource sampleOwner "default"
        (some KErr.notFound)).1 = .ok () ∧
    (ResourceReconciler.deleteOwnerResource (⟨"batch/v1", "Job", "j", 3⟩ : OwnerReference)
        "default" (some KErr.notFound)).1 =
      .error ResourceReconciler.OwnerDelErr.unsupportedKind ∧
    Act.deleteRec (sched 5 0) ∈
      (ResourceReconciler.deleteExpiredResources (sched 5 0) unusedRT).2 :=
  c8_owner_resolver_amended sampleOwner ⟨"batch/v1", "Job", "j", 3⟩ "default"
    (sched 5 0) unusedRT "" "v1" "batch" "v1" rfl (by decide) rfl (by decide)

/-- A record with TTL of minus five seconds, before first observation. -/
def rNeg : TTLResource := mkTTLRec 5 (some 0) [sampleOwner] (-5) false none none

/-- The same record after its createdAt has been initialized. -/
def rNeg2 : TTLResource := mkTTLRec 5 (some 0) [sampleOwner] (-5) false (some 0) none

/-- Claim C9, counterexample.  A standalone run on an initialized
record with `ttlSeconds = -5`: expiredAt is computed (a time before
createdAt) and the RECORD is deleted — but the trace contains no owner
target deletion, ever, because the standalone reconciler only deletes
the record itself; and in the delegation path (see the amended
theorem) the cascade happens in the SAME reconciliation as status
initialization, not the next one.  Both points contradict the claim's
"the record (and its owner target) is deleted on the next
reconciliation after status initialization". -/
theorem c9_counterexample :
    TTLResourceReconciler.Reconcile ("default", "ttl-web") 0 (okSAEnv rNeg2) =
      ((⟨false, 0⟩, none),
       [Act.getRec "default" "ttl-web",
        Act.statusUpdate
          (mkTTLRec 5 (some 0) [sampleOwner] (-5) false (some 0)
            (some (0 + (-5) * nsPerSec))),
        Act.statusUpdate
          (mkTTLRec 5 (some 0) [sampleOwner] (-5) true (some 0)
            (some (0 + (-5) * nsPerSec))),
        Act.deleteRec
          (mkTTLRec 5 (some 0) [sampleOwner] (-5) true (some 0)
            (some (0 + (-5) * nsPerSec)))]) := by
  decide

/-- Claim C9, amended.  A strictly negative `ttlSeconds` is indeed not
"never expire": the `ttlSeconds == 0` guard does not apply, and
`expiredAt = createdAt + ttlSeconds` lies strictly before `createdAt`.
But the deletions happen differently than claimed: the delegation path
initializes status AND performs the full cascade (owner target, then
record) within one single reconciliation, while the standalone
reconciler deletes only the record — never the owner target — on the
reconciliation following createdAt initialization. -/
theorem c9_negative_ttl_amended (r r2 : TTLResource) (t0 now nowB : Int)
    (env : ResourceReconciler.RTEnv) (saEnv : TTLResourceReconciler.Env)
    (httl : r.spec.ttlSeconds < 0)
    (hst : r.status = ⟨false, none, none⟩)
    (hct : r.creationTimestamp = some t0)
    (hor : r.ownerReferences = [sampleOwner])
    (hg1 : env.reGet1 = .ok r)
    (hbatch : env.updBatch = none)
    (hg3 : env.reGet3 = .ok (ResourceReconciler.applyInit r))
    (hupdE : env.updExpired = none) (hdelO : env.delOwner = none)
    (hdelR : env.delRecord = none) (hn2 : t0 ≤ env.now2)
    (httl2 : r2.spec.ttlSeconds < 0)
    (hst2 : r2.status = ⟨false, some t0, none⟩)
    (hgetB : saEnv.get0 = .ok r2)
    (hupdB1 : saEnv.updExpiredAt = none) (hupdB2 : saEnv.updExpired = none)
    (hdelB : saEnv.delRec = none) (hnB : t0 ≤ nowB) :
    ResourceReconciler.reconcileTTLResource r now env =
      ((⟨false, 0⟩, none),
       [Act.getRec r.ns r.name,
        Act.statusUpdate (ResourceReconciler.applyInit r),
        Act.getRec r.ns r.name,
        Act.statusUpdate (setExpired (ResourceReconciler.applyInit r)),
        Act.deleteTarget "Pod" r.ns "web",
        Act.deleteRec (setExpired (ResourceReconciler.applyInit r))]) ∧
    (ResourceReconciler.applyInit r).status.expiredAt =
      some (t0 + r.spec.ttlSeconds * nsPerSec) ∧
    t0 + r.spec.ttlSeconds * nsPerSec < t0 ∧
    TTLResourceReconciler.Reconcile (r2.ns, r2.name) nowB saEnv =
      ((⟨false, 0⟩, none),
       [Act.getRec r2.ns r2.name,
        Act.statusUpdate { r2 with status :=
          ⟨false, some t0, some (t0 + r2.spec.ttlSeconds * nsPerSec)⟩ },
        Act.statusUpdate (setExpired { r2 with status :=
          ⟨false, some t0, some (t0 + r2.spec.ttlSeconds * nsPerSec)⟩ }),
        Act.deleteRec (setExpired { r2 with status :=
          ⟨false, some t0, some (t0 + r2.spec.ttlSeconds * nsPerSec)⟩ })]) := by
  have hsec : (0 : Int) < nsPerSec := by decide
  have hmul : r.spec.ttlSeconds * nsPerSec < 0 := mul_neg_of_neg_of_pos httl hsec
  have hmul2 : r2.spec.ttlSeconds * nsPerSec < 0 := mul_neg_of_neg_of_pos httl2 hsec
  have hne : r.spec.ttlSeconds ≠ 0 := by omega
  have hne2 : r2.spec.ttlSeconds ≠ 0 := by omega
  have hle : t0 + r.spec.ttlSeconds * nsPerSec ≤ env.now2 := by omega
  have hltB : t0 + r2.spec.ttlSeconds * nsPerSec < nowB := by omega
  refine ⟨?_, ?_, ?_, ?_⟩
  · unfold ResourceReconciler.reconcileTTLResource ResourceReconciler.expiryPhase
      ResourceReconciler.deleteExpiredResources
    rw [hg1, hg3]
    simp [ResourceReconciler.applyInit, hst, hct, setExpired, hor, hbatch, hupdE,
          hdelO, hdelR, sampleOwner_del_ok, hle, hne]
  · simp [ResourceReconciler.applyInit, hst, hct]
  · omega
  · unfold TTLResourceReconciler.Reconcile TTLResourceReconciler.expiryStep
    rw [hgetB]
    simp [hst2, setExpired, hupdB1, hupdB2, hdelB, hltB, hne2]

/-- Concrete instance of `c9_negative_ttl_amended` at TTL -5 s. -/
theorem c9_negative_ttl_amended_witness :
    ResourceReconciler.reconcileTTLResource rNeg 42
      ⟨.ok rNeg, none, .ok rNeg, .ok (ResourceReconciler.applyInit rNeg),
       none, none, none, 3⟩ =
      ((⟨false, 0⟩, none),
       [Act.getRec "default" "ttl-web",
        Act.statusUpdate (ResourceReconciler.applyInit rNeg),
        Act.getRec "default" "ttl-web",
        Act.statusUpdate (setExpired (ResourceReconciler.applyInit rNeg)),
        Act.deleteTarget "Pod" "default" "web",
        Act.deleteRec (setExpired (ResourceReconciler.applyInit rNeg))]) ∧
    (ResourceReconciler.applyInit rNeg).status.expiredAt =
      some (0 + rNeg.spec.ttlSeconds * nsPerSec) ∧
    0 + rNeg.spec.ttlSeconds * nsPerSec < 0 ∧
    TTLResourceReconciler.Reconcile ("default", "ttl-web") 1 (okSAEnv rNeg2) =
      ((⟨false, 0⟩, none),
       [Act.getRec "default" "ttl-web",
        Act.statusUpdate { rNeg2 with status :=
          ⟨false, some 0, some (0 + rNeg2.spec.ttlSeconds * nsPerSec)⟩ },
        Act.statusUpdate (setExpired { rNeg2 with status :=
          ⟨false, some 0, some (0 + rNeg2.spec.ttlSeconds * nsPerSec)⟩ }),
        Act.deleteRec (setExpired { rNeg2 with status :=
          ⟨false, some 0, some (0 + rNeg2.spec.ttlSeconds * nsPerSec)⟩ })]) :=
  c9_negative_ttl_amended rNeg rNeg2 0 42 1
    ⟨.ok rNeg, none, .ok rNeg, .ok (ResourceReconciler.applyInit rNeg),
     none, none, none, 3⟩
    (okSAEnv rNeg2)
    (by decide) rfl rfl rfl rfl rfl rfl rfl rfl rfl (by decide)
    (by decide) rfl rfl rfl rfl rfl (by decide)

/-- Claim C10, confirmed.  On an already-expired but still existing
record (`expired = true`, createdAt and expiredAt set, TTL positive,
deadline passed): the standalone reconciler's expiry branch requires
`expired == false`, so it performs no deletion at all and returns
success with the non-positive requeue delay `expiredAt - now`; the
ResourceReconciler's delegation path instead re-reads the record and,
the UID matching, deletes the owner target and then the record. -/
theorem c10_expired_divergence (r : TTLResource) (now e c : Int)
    (saEnv : TTLResourceReconciler.Env) (env : ResourceReconciler.RTEnv)
    (hst : r.status = ⟨true, some c, some e⟩) (hS : 0 < r.spec.ttlSeconds)
    (hnow : e ≤ now) (hor : r.ownerReferences = [sampleOwner])
    (hget0 : saEnv.get0 = .ok r) (hg2 : env.reGet2 = .ok r)
    (hdelO : env.delOwner = none) (hdelR : env.delRecord = none) :
    TTLResourceReconciler.Reconcile (r.ns, r.name) now saEnv =
      ((⟨false, e - now⟩, none), [Act.getRec r.ns r.name]) ∧
    e - now ≤ 0 ∧
    ResourceReconciler.reconcileTTLResource r now env =
      ((⟨false, 0⟩, none),
       [Act.getRec r.ns r.name, Act.deleteTarget "Pod" r.ns "web",
        Act.deleteRec r]) := by
  have hne : r.spec.ttlSeconds ≠ 0 := by omega
  refine ⟨?_, by omega, ?_⟩
  · unfold TTLResourceReconciler.Reconcile TTLResourceReconciler.expiryStep
    rw [hget0]
    simp [hst, hne]
  · unfold ResourceReconciler.reconcileTTLResource ResourceReconciler.expiryPhase
      ResourceReconciler.deleteExpiredResources
    rw [hg2]
    simp [hst, hne, hor, hdelO, hdelR, sampleOwner_del_ok]

/-- Concrete instance of `c10_expired_divergence` at TTL 5 s, one
second past the deadline. -/
theorem c10_expired_divergence_witness :
    TTLResourceReconciler.Reconcile ("default", "ttl-web") (6 * nsPerSec)
      (okSAEnv (schedX 5 0)) =
      ((⟨false, 0 + 5 * nsPerSec - 6 * nsPerSec⟩, none),
       [Act.getRec "default" "ttl-web"]) ∧
    0 + 5 * nsPerSec - 6 * nsPerSec ≤ 0 ∧
    ResourceReconciler.reconcileTTLResource (schedX 5 0) (6 * nsPerSec)
      (okRTEnv (schedX 5 0) 0) =
      ((⟨false, 0⟩, none),
       [Act.getRec "default" "ttl-web", Act.deleteTarget "Pod" "default" "web",
        Act.deleteRec (schedX 5 0)]) :=
  c10_expired_divergence (schedX 5 0) (6 * nsPerSec) (0 + 5 * nsPerSec) 0
    (okSAEnv (schedX 5 0)) (okRTEnv (schedX 5 0) 0)
    rfl (by decide) (by decide) rfl rfl rfl rfl rfl
